import Mathlib

/-!
Shallow embedding of the `GtDBusQueue` mock D-Bus service queue from
libglib-testing (`libglib-testing/dbus-queue.c` and `dbus-queue.h`).

The embedding models:
- `GAsyncQueue` as a list of items (head of the list is the head of the
  queue, `g_async_queue_push` appends at the tail) together with the number
  of threads currently blocked in a waiting pop, since
  `g_async_queue_length` returns the number of items minus the number of
  waiting threads and can therefore be negative;
- `GDBusMethodInvocation` as a record of the message header fields and
  parameters, with `GVariant` values modelled by their canonical text form
  (GVariant itself is external GLib code);
- GLib error-handling conventions explicitly: a failed
  `g_return_if_fail` / `g_return_val_if_fail` precondition check logs a
  critical message, and a GLib test process (after `g_test_init`, which
  this test library requires) aborts on critical messages, so it is a
  fatal outcome distinct from `g_assert` / `g_assert_not_reached` failures;
- the blocking wait loop of `gt_dbus_queue_pop_message_internal` with an
  explicit schedule of message arrivals: each `g_main_context_iteration`
  call may deliver a batch of new method-call messages, and a result of
  `none` means the call has not returned within the schedule.
-/

namespace GtDBus

/-- A `GDBusConnection`, modelled by its stable unique bus name (the only
property of a connection the queue logic observes). -/
structure GDBusConnection where
  uniqueName : String
deriving DecidableEq, Repr

/-- A `GVariant` value, modelled by its canonical text form.
`g_variant_new_parsed` is external GLib code; parsing is modelled as the
identity on canonical text, and `g_variant_equal` as equality of canonical
text. -/
structure GVariant where
  text : String
deriving DecidableEq, Repr

/-- Model of `g_variant_new_parsed`. -/
def g_variant_new_parsed (s : String) : GVariant := ⟨s⟩

/-- Model of `g_variant_equal`. -/
def g_variant_equal (a b : GVariant) : Bool := a == b

/-- A `GDBusMethodInvocation`: one captured incoming method call. -/
structure GDBusMethodInvocation where
  sender : String
  objectPath : String
  interfaceName : String
  methodName : String
  parameters : GVariant
  serial : Nat
deriving DecidableEq, Repr

/-- A `GAsyncQueue`: items in FIFO order (head first) plus the number of
threads currently blocked waiting in a pop, which `g_async_queue_length`
subtracts from the item count. -/
structure GAsyncQueue (α : Type) where
  items : List α
  waitingThreads : Nat
deriving DecidableEq, Repr

/-- `g_async_queue_push`: append at the tail. -/
def GAsyncQueue.push {α : Type} (q : GAsyncQueue α) (a : α) : GAsyncQueue α :=
  { q with items := q.items ++ [a] }

/-- `g_async_queue_try_pop`: remove and return the head, if any. -/
def GAsyncQueue.tryPop {α : Type} (q : GAsyncQueue α) :
    Option α × GAsyncQueue α :=
  match q.items with
  | [] => (none, q)
  | a :: rest => (some a, { q with items := rest })

/-- `g_async_queue_length`: item count minus waiting threads; this value
can be negative when threads are blocked on an empty queue. -/
def GAsyncQueue.length {α : Type} (q : GAsyncQueue α) : Int :=
  (q.items.length : Int) - (q.waitingThreads : Int)

/-- The `GtDBusQueue` state (struct `_GtDBusQueue`). The bus handle and the
main contexts carry no observable state in this model; connections are
`Option` (NULL is `none`); `server_func` is a token (`none` is NULL) and
`server_func_data` an opaque token. -/
structure GtDBusQueue where
  serverThread : Bool
  serverFilterId : Nat
  serverFunc : Option Nat
  serverFuncData : Nat
  quitting : Bool
  serverConnection : Option GDBusConnection
  nameIds : List Nat
  objectIds : List Nat
  serverMessageQueue : GAsyncQueue GDBusMethodInvocation
  clientConnection : Option GDBusConnection
deriving DecidableEq, Repr

/-- Outcome of a call that can fail a GLib precondition check or a fatal
assertion.
- `precondFail`: a `g_return_if_fail` / `g_return_val_if_fail` check
  failed; this logs a critical message, which aborts a GLib test process
  (after `g_test_init`, criticals are fatal by default).
- `fatalAssert`: `g_assert` / `g_assert_not_reached` failed, aborting the
  process.
- `ok`: the call completed and returned a value. -/
inductive CallResult (α : Type) where
  | precondFail
  | fatalAssert
  | ok (value : α)
deriving DecidableEq, Repr

/-- Whether an outcome aborts a GLib test process: both failed
precondition checks (critical messages are fatal under `g_test_init`) and
failed assertions do. -/
def CallResult.isFatal {α : Type} : CallResult α → Bool
  | .precondFail => true
  | .fatalAssert => true
  | .ok _ => false

/-- `gt_dbus_queue_method_call`: the `GDBusInterfaceVTable.method_call`
handler. Runs in the server thread; pushes the received invocation onto the
server message queue (the wake-ups of the two main contexts carry no state
in this model). -/
def gt_dbus_queue_method_call (self : GtDBusQueue)
    (invocation : GDBusMethodInvocation) : GtDBusQueue :=
  { self with serverMessageQueue := self.serverMessageQueue.push invocation }

/-- `gt_dbus_queue_get_n_messages`: `g_async_queue_length` clamped with
`MAX (n_messages, 0)` and returned as an unsigned `gsize`. -/
def gt_dbus_queue_get_n_messages (self : GtDBusQueue) : Nat :=
  (max self.serverMessageQueue.length 0).toNat

/-- The blocking wait loop of `gt_dbus_queue_pop_message_internal`:
repeatedly try-pop; while the queue is empty, run one main-context
iteration, which delivers the next batch of arrivals from the schedule.
Returns the popped invocation and the remaining queue items, or `none` if
the schedule is exhausted with the queue still empty (the loop has not
terminated yet). -/
def popWaitLoop (items : List GDBusMethodInvocation)
    (sched : List (List GDBusMethodInvocation)) :
    Option (GDBusMethodInvocation × List GDBusMethodInvocation) :=
  match items, sched with
  | m :: rest, _ => some (m, rest)
  | [], [] => none
  | [], batch :: later => popWaitLoop batch later

/-- `gt_dbus_queue_pop_message_internal`. Returns
`some (message_popped, out_invocation, queue afterwards)` when the call
returns, `none` when the blocking loop is still running after the arrival
schedule `sched` is exhausted.

Note the loop condition in the source is
`while (wait && (invocation = g_async_queue_try_pop (...)) == NULL)`:
when `wait` is FALSE the conjunction short-circuits, so
`g_async_queue_try_pop` is never evaluated, `invocation` stays NULL and
the function returns FALSE without ever attempting a pop. -/
def gt_dbus_queue_pop_message_internal (self : GtDBusQueue) (wait : Bool)
    (sched : List (List GDBusMethodInvocation)) :
    Option (Bool × Option GDBusMethodInvocation × GtDBusQueue) :=
  if self.serverThread = false then
    -- g_return_val_if_fail (self->server_thread != NULL, FALSE)
    some (false, none, self)
  else if wait then
    match popWaitLoop self.serverMessageQueue.items sched with
    | none => none
    | some (m, rest) =>
        some (true, some m,
              { self with
                serverMessageQueue := { self.serverMessageQueue with items := rest } })
  else
    -- wait is FALSE: the && short-circuits and no pop is attempted.
    some (false, none, self)

/-- `gt_dbus_queue_try_pop_message`: the non-blocking variant; with
`wait = FALSE` the internal helper always returns immediately, so the
`Option` is collapsed. -/
def gt_dbus_queue_try_pop_message (self : GtDBusQueue) :
    Bool × Option GDBusMethodInvocation × GtDBusQueue :=
  (gt_dbus_queue_pop_message_internal self false []).getD (false, none, self)

/-- `gt_dbus_queue_pop_message`: the blocking variant. -/
def gt_dbus_queue_pop_message (self : GtDBusQueue)
    (sched : List (List GDBusMethodInvocation)) :
    Option (Bool × Option GDBusMethodInvocation × GtDBusQueue) :=
  gt_dbus_queue_pop_message_internal self true sched

/-- Model of `g_dbus_message_print` (external GLib) applied to the message
of an invocation, as done by `gt_dbus_queue_format_message`: a human
readable rendering of the header fields and parameters. -/
def gt_dbus_queue_format_message (invocation : GDBusMethodInvocation) : String :=
  "Type:    method-call\n" ++
  "Serial:  " ++ toString invocation.serial ++ "\n" ++
  "Sender:  " ++ invocation.sender ++ "\n" ++
  "Path:    " ++ invocation.objectPath ++ "\n" ++
  "Interface: " ++ invocation.interfaceName ++ "\n" ++
  "Member:  " ++ invocation.methodName ++ "\n" ++
  "Parameters: " ++ invocation.parameters.text ++ "\n"

/-- The drain loop of `gt_dbus_queue_format_messages`: cyclically pop every
element off the head of the queue, appending its rendering to `output` and
the element itself to `localQueue`. -/
def formatMessagesLoop (items : List GDBusMethodInvocation) (output : String)
    (localQueue : List GDBusMethodInvocation) :
    String × List GDBusMethodInvocation :=
  match items with
  | [] => (output, localQueue)
  | m :: rest =>
      formatMessagesLoop rest (output ++ gt_dbus_queue_format_message m)
        (localQueue ++ [m])

/-- `gt_dbus_queue_format_messages`: under a single
`g_async_queue_lock` / `g_async_queue_unlock` critical section (the whole
function application here is one atomic step), drain the queue into a local
queue while rendering each message, then push the local queue back in
original order. Returns the rendered dump and the queue afterwards. -/
def gt_dbus_queue_format_messages (self : GtDBusQueue) :
    String × GtDBusQueue :=
  let drained := formatMessagesLoop self.serverMessageQueue.items "" []
  let rebuilt :=
    drained.2.foldl GAsyncQueue.push
      { self.serverMessageQueue with items := [] }
  (drained.1, { self with serverMessageQueue := rebuilt })

/-- The `gt_dbus_queue_assert_no_messages` macro (dbus-queue.h): if the
message count is positive, build the failure message (with the formatted
dump of every pending message) and call `g_assertion_message`, which aborts.
Returns the abort message (`some`) or `none` when the assertion passes,
together with the queue afterwards. -/
def gt_dbus_queue_assert_no_messages (self : GtDBusQueue) :
    Option String × GtDBusQueue :=
  if gt_dbus_queue_get_n_messages self > 0 then
    let formatted := gt_dbus_queue_format_messages self
    (some ("Expected no messages, but saw " ++
           toString (gt_dbus_queue_get_n_messages formatted.2) ++ ":\n" ++
           formatted.1),
     formatted.2)
  else
    (none, self)

/-- `g_array_remove_index_fast` (external GLib): overwrite the element at
index `i` with the last element, then drop the last element; this does not
preserve order. -/
def g_array_remove_index_fast (l : List Nat) (i : Nat) : List Nat :=
  (l.set i (l.getLast?.getD 0)).dropLast

/-- `gt_dbus_queue_unown_name`: scan the tracked name-ownership IDs under
the lock for the first entry equal to `id`; if found, remove it (with
`g_array_remove_index_fast`) and release the name; if the scan finds
nothing, `g_assert_not_reached` aborts. -/
def gt_dbus_queue_unown_name (self : GtDBusQueue) (id : Nat) :
    CallResult GtDBusQueue :=
  if self.serverThread = false then .precondFail
  else if id = 0 then .precondFail
  else
    match self.nameIds.findIdx? (fun x => x == id) with
    | some i => .ok { self with nameIds := g_array_remove_index_fast self.nameIds i }
    | none => .fatalAssert

/-- `gt_dbus_queue_set_server_func`: set the user data first, then
compare-and-exchange the server-function slot from NULL to `func`;
`g_assert (swapped)` aborts when the slot was already set. The function
pointer is a token with `0` for NULL (`g_return_if_fail (func != NULL)`). -/
def gt_dbus_queue_set_server_func (self : GtDBusQueue) (func : Nat)
    (userData : Nat) : CallResult GtDBusQueue :=
  if func = 0 then .precondFail
  else
    let withData := { self with serverFuncData := userData }
    match withData.serverFunc with
    | none => .ok { withData with serverFunc := some func }
    | some _ => .fatalAssert

/-- Observable events of the server thread main function. -/
inductive ServerThreadEvent where
  | iteration
  | invokeServerFunc (func : Nat) (userData : Nat)
  | iterationNonBlocking
deriving DecidableEq, Repr

/-- Whether an event is the invocation of the installed server function. -/
def ServerThreadEvent.isInvoke : ServerThreadEvent → Bool
  | .invokeServerFunc _ _ => true
  | _ => false

/-- `gt_dbus_queue_server_thread_cb`: the trace of one run of the server
thread, parameterised by how many blocking iterations the first wait loop
and the quit wait loop perform and how many ready sources the final
non-blocking drain processes. The atomically read server-function snapshot
is invoked exactly once if set, between the two loops, and never
otherwise. -/
def gt_dbus_queue_server_thread_cb (self : GtDBusQueue)
    (waitIterations drainIterations finalIterations : Nat) :
    List ServerThreadEvent :=
  List.replicate waitIterations .iteration ++
  (match self.serverFunc with
   | some f => [.invokeServerFunc f self.serverFuncData]
   | none => []) ++
  List.replicate drainIterations .iteration ++
  List.replicate finalIterations .iterationNonBlocking

/-- Characters permitted inside a D-Bus object-path element. -/
def isObjectPathElementChar (c : Char) : Bool :=
  c.isAlpha || c.isDigit || c == '_'

/-- Scan the tail of an object path (after the leading solidus), tracking
the previous character: adjacent solidi (empty elements) are rejected. -/
def objectPathTailOk (prev : Char) (cs : List Char) : Bool :=
  match cs with
  | [] => true
  | c :: rest =>
      if c == '/' then prev != '/' && objectPathTailOk c rest
      else isObjectPathElementChar c && objectPathTailOk c rest

/-- Model of `g_variant_is_object_path` (external GLib): the path begins
with a solidus, has no empty elements, uses only element characters, and
does not end with a solidus unless it is the root path. -/
def g_variant_is_object_path (s : String) : Bool :=
  match s.data with
  | [] => false
  | c :: rest =>
      c == '/' && objectPathTailOk '/' rest &&
      (rest.isEmpty || rest.getLast? != some '/')

/-- First character of a D-Bus name element. -/
def isNameFirstChar (c : Char) : Bool := c.isAlpha || c == '_'

/-- Subsequent characters of a D-Bus name element. -/
def isNameChar (c : Char) : Bool := c.isAlpha || c.isDigit || c == '_'

/-- A single element of a D-Bus interface name. -/
def interfaceElementOk (cs : List Char) : Bool :=
  match cs with
  | [] => false
  | c :: rest => isNameFirstChar c && rest.all isNameChar

/-- Scan an interface name: full-stop-separated elements, each nonempty,
starting with a name-first character and continuing with name characters.
`atStart` records whether the scan is at the start of an element. -/
def interfaceScan (atStart : Bool) (cs : List Char) : Bool :=
  match cs with
  | [] => !atStart
  | c :: rest =>
      if c == '.' then !atStart && interfaceScan true rest
      else
        (if atStart then isNameFirstChar c else isNameChar c) &&
        interfaceScan false rest

/-- Model of `g_dbus_is_interface_name` (external GLib): nonempty, at most
255 characters, at least two elements (so at least one full stop), each
element well-formed. -/
def g_dbus_is_interface_name (s : String) : Bool :=
  decide (0 < s.length) && decide (s.length ≤ 255) &&
  s.data.contains '.' &&
  interfaceScan true s.data

/-- Model of `g_dbus_is_member_name` (external GLib). -/
def g_dbus_is_member_name (s : String) : Bool :=
  decide (0 < s.length) && decide (s.length ≤ 255) &&
  interfaceElementOk s.data

/-- `gt_dbus_queue_match_client_message`: after the precondition checks on
the expected strings, a pure conjunction comparing the sender against the
client connection's unique name, the object path, interface name and
method name against the expected strings, and, only when an expected
parameters string was supplied, the parameters against its parse. With no
client connection the sender comparison cannot succeed (the C code would
compare against NULL). -/
def gt_dbus_queue_match_client_message (self : GtDBusQueue)
    (invocation : GDBusMethodInvocation)
    (expectedObjectPath expectedInterfaceName expectedMethodName : String)
    (expectedParametersString : Option String) : Bool :=
  if !(g_variant_is_object_path expectedObjectPath) then false
  else if !(g_dbus_is_interface_name expectedInterfaceName) then false
  else if !(g_dbus_is_member_name expectedMethodName) then false
  else
    match self.clientConnection with
    | none => false
    | some client =>
        (invocation.sender == client.uniqueName) &&
        (invocation.objectPath == expectedObjectPath) &&
        (invocation.interfaceName == expectedInterfaceName) &&
        (invocation.methodName == expectedMethodName) &&
        (match expectedParametersString.map g_variant_new_parsed with
         | none => true
         | some v => g_variant_equal invocation.parameters v)

/-- `gt_dbus_queue_export_object`: precondition checks (connected, valid
object path, interface info present), then the registration performed in
the server thread, whose external outcome (`g_dbus_connection_register_object`)
is `registerResult`; a registration error is propagated as a recoverable
error value, a zero ID fails `g_assert (id != 0)`, and a valid ID is
appended to the tracked object IDs under the lock. -/
def gt_dbus_queue_export_object (self : GtDBusQueue) (objectPath : String)
    (hasInterfaceInfo : Bool) (registerResult : Except String Nat) :
    CallResult (Except String (Nat × GtDBusQueue)) :=
  if self.serverThread = false then .precondFail
  else if !(g_variant_is_object_path objectPath) then .precondFail
  else if !hasInterfaceInfo then .precondFail
  else
    match registerResult with
    | .error e => .ok (.error e)
    | .ok id =>
        if id = 0 then .fatalAssert
        else .ok (.ok (id, { self with objectIds := self.objectIds ++ [id] }))

/-- Observable events of `gt_dbus_queue_disconnect`, in program order. -/
inductive DisconnectEvent where
  | assertNoMessages
  | closeClientConnection
  | lockAcquire
  | unownName (id : Nat)
  | clearNameIds
  | unregisterObject (id : Nat)
  | clearObjectIds
  | lockRelease
  | removeFilter
  | closeServerConnection
  | busDown
  | storeQuittingAtomic
  | wakeupServerContext
  | joinServerThread
deriving DecidableEq, Repr

/-- Whether an event is one of the underlying unregistration calls
(`g_bus_unown_name` or `g_dbus_connection_unregister_object`). -/
def DisconnectEvent.isUnregisterCall : DisconnectEvent → Bool
  | .unownName _ => true
  | .unregisterObject _ => true
  | _ => false

/-- Whether an event is the mutex acquisition. -/
def DisconnectEvent.isLockAcquire : DisconnectEvent → Bool
  | .lockAcquire => true
  | _ => false

/-- Whether an event is the mutex release. -/
def DisconnectEvent.isLockRelease : DisconnectEvent → Bool
  | .lockRelease => true
  | _ => false

/-- The events strictly between the first `lockAcquire` and the following
`lockRelease` of a trace: the critical section of the disconnect lock. -/
def lockedSegment (tr : List DisconnectEvent) : List DisconnectEvent :=
  ((tr.dropWhile (fun e => !(e.isLockAcquire))).drop 1).takeWhile
    (fun e => !(e.isLockRelease))

/-- `gt_dbus_queue_disconnect`: with `assert_queue_empty` set, first run the
`gt_dbus_queue_assert_no_messages` macro (which aborts when the queue is
non-empty); then close the client connection, take the lock, release every
tracked name, clear the name IDs, unregister every tracked object, clear
the object IDs, release the lock, remove the debug filter, close the
server connection, shut the private bus down, atomically store the
quitting flag, wake the server main context, and join the server thread.
Returns the event trace and the state afterwards. -/
def gt_dbus_queue_disconnect (self : GtDBusQueue) (assertQueueEmpty : Bool) :
    CallResult (List DisconnectEvent × GtDBusQueue) :=
  if self.serverThread = false then .precondFail
  else if assertQueueEmpty && decide (0 < gt_dbus_queue_get_n_messages self) then
    .fatalAssert
  else
    .ok (
      (if assertQueueEmpty then [.assertNoMessages] else []) ++
      (if self.clientConnection.isSome then [.closeClientConnection] else []) ++
      [.lockAcquire] ++
      self.nameIds.map DisconnectEvent.unownName ++
      [.clearNameIds] ++
      self.objectIds.map DisconnectEvent.unregisterObject ++
      [.clearObjectIds, .lockRelease] ++
      (if self.serverFilterId ≠ 0 then [.removeFilter] else []) ++
      (if self.serverConnection.isSome then [.closeServerConnection] else []) ++
      [.busDown, .storeQuittingAtomic, .wakeupServerContext, .joinServerThread],
      { self with
        clientConnection := none,
        nameIds := [],
        objectIds := [],
        serverFilterId := 0,
        serverConnection := none,
        quitting := true,
        serverThread := false })

/-- Outcome of `gt_dbus_queue_assert_pop_message_impl`. -/
inductive AssertPopOutcome where
  | precondFail
  | sawNoMessages (message : String)
  | mismatch (message : String)
  | success (invocation : GDBusMethodInvocation) (queue : GtDBusQueue)
deriving DecidableEq, Repr

/-- `gt_dbus_queue_assert_pop_message_impl`: after precondition checks on
the expected strings, perform a blocking `gt_dbus_queue_pop_message`; a
FALSE return takes the "saw no messages" assertion branch, a popped message
that fails `gt_dbus_queue_match_client_message` (with a NULL parameters
argument) takes the "but saw" assertion branch, and otherwise the
invocation is returned (the `g_variant_get_va` extraction of the
parameters is external and carried by the invocation itself). A result of
`none` means the blocking pop has not returned. A TRUE return with no
invocation cannot occur (the internal helper always returns the popped
invocation with TRUE); it is mapped to the "saw no messages" branch. -/
def gt_dbus_queue_assert_pop_message_impl (self : GtDBusQueue)
    (expectedObjectPath expectedInterfaceName expectedMethodName : String)
    (sched : List (List GDBusMethodInvocation)) : Option AssertPopOutcome :=
  if !(g_variant_is_object_path expectedObjectPath) then some .precondFail
  else if !(g_dbus_is_interface_name expectedInterfaceName) then some .precondFail
  else if !(g_dbus_is_member_name expectedMethodName) then some .precondFail
  else
    match gt_dbus_queue_pop_message self sched with
    | none => none
    | some (false, _, _) =>
        some (.sawNoMessages
          ("Expected message " ++ expectedInterfaceName ++ "." ++
           expectedMethodName ++ " from " ++ expectedObjectPath ++
           ", but saw no messages"))
    | some (true, none, _) =>
        some (.sawNoMessages
          ("Expected message " ++ expectedInterfaceName ++ "." ++
           expectedMethodName ++ " from " ++ expectedObjectPath ++
           ", but saw no messages"))
    | some (true, some invocation, q) =>
        if gt_dbus_queue_match_client_message self invocation
            expectedObjectPath expectedInterfaceName expectedMethodName none then
          some (.success invocation q)
        else
          some (.mismatch
            ("Expected message " ++ expectedInterfaceName ++ "." ++
             expectedMethodName ++ " from " ++ expectedObjectPath ++
             ", but saw: " ++ gt_dbus_queue_format_message invocation))

/-- Concatenation of the renderings of a list of messages, head first: the
shape of the dump `gt_dbus_queue_format_messages` produces. -/
def joinRendered (msgs : List GDBusMethodInvocation) : String :=
  match msgs with
  | [] => ""
  | m :: rest => gt_dbus_queue_format_message m ++ joinRendered rest

/-! ### Concrete fixtures, mirroring tests/dbus-queue.c -/

/-- The client connection of a connected queue. -/
def sampleClientConnection : GDBusConnection := ⟨":1.1"⟩

/-- The server connection of a connected queue. -/
def sampleServerConnection : GDBusConnection := ⟨":1.2"⟩

/-- The first method call the test service receives. -/
def inv1 : GDBusMethodInvocation :=
  { sender := ":1.1"
    objectPath := "/com/example/Test"
    interfaceName := "com.example.Test.Manager"
    methodName := "GetObjectPath"
    parameters := ⟨"(uint32 123,)"⟩
    serial := 1 }

/-- The second method call the test service receives. -/
def inv2 : GDBusMethodInvocation :=
  { sender := ":1.1"
    objectPath := "/com/example/Test/Object123"
    interfaceName := "org.freedesktop.DBus.Properties"
    methodName := "GetAll"
    parameters := ⟨"('com.example.Test.Object',)"⟩
    serial := 2 }

/-- A connected queue with an empty message queue. -/
def connectedQueue : GtDBusQueue :=
  { serverThread := true
    serverFilterId := 1
    serverFunc := none
    serverFuncData := 0
    quitting := false
    serverConnection := some sampleServerConnection
    nameIds := []
    objectIds := []
    serverMessageQueue := ⟨[], 0⟩
    clientConnection := some sampleClientConnection }

/-- The connected queue after the transport delivered one method call. -/
def queueWithOneMessage : GtDBusQueue :=
  gt_dbus_queue_method_call connectedQueue inv1

/-- A connected queue tracking one name-ownership ID and one
object-registration ID. -/
def disconnectFixture : GtDBusQueue :=
  { connectedQueue with nameIds := [7], objectIds := [9] }

/-- A connected queue tracking two name-ownership IDs. -/
def namesFixture : GtDBusQueue :=
  { connectedQueue with nameIds := [7, 8] }

/-- The event trace of a successful disconnect (empty on abort). -/
def disconnectTrace (self : GtDBusQueue) (assertQueueEmpty : Bool) :
    List DisconnectEvent :=
  match gt_dbus_queue_disconnect self assertQueueEmpty with
  | .ok (tr, _) => tr
  | _ => []

/-! ### Helper lemmas -/

/-- The drain loop renders the messages head first and collects them, in
order, behind the accumulator. -/
theorem formatMessagesLoop_eq (items : List GDBusMethodInvocation) :
    ∀ (output : String) (acc : List GDBusMethodInvocation),
      formatMessagesLoop items output acc =
        (output ++ joinRendered items, acc ++ items) := by
  induction items with
  | nil =>
      intro output acc
      simp [formatMessagesLoop, joinRendered, String.append_empty]
  | cons m rest ih =>
      intro output acc
      simp [formatMessagesLoop, joinRendered, ih, String.append_assoc]

/-- Folding `g_async_queue_push` over a list appends it behind the items. -/
theorem foldl_push_eq (l : List GDBusMethodInvocation) :
    ∀ q : GAsyncQueue GDBusMethodInvocation,
      l.foldl GAsyncQueue.push q = ⟨q.items ++ l, q.waitingThreads⟩ := by
  induction l with
  | nil => intro q; cases q; simp
  | cons a l ih =>
      intro q
      rw [List.foldl_cons, ih]
      simp [GAsyncQueue.push]

/-- `gt_dbus_queue_format_messages` pushes the drained messages back in
their original order: the queue state is unchanged. -/
theorem format_messages_state (self : GtDBusQueue) :
    (gt_dbus_queue_format_messages self).2 = self := by
  cases self with
  | mk st fid f fd qt sc ni oi q cc =>
      cases q with
      | mk items w =>
          simp [gt_dbus_queue_format_messages, formatMessagesLoop_eq,
                foldl_push_eq]

/-- The dump produced by `gt_dbus_queue_format_messages` is the head-first
concatenation of the renderings of the queued messages. -/
theorem format_messages_output (self : GtDBusQueue) :
    (gt_dbus_queue_format_messages self).1 =
      joinRendered self.serverMessageQueue.items := by
  simp [gt_dbus_queue_format_messages, formatMessagesLoop_eq,
        String.empty_append]

/-! ### Claim theorems -/

/-- Claim C1 (code bug): the claim says every pop — blocking
`gt_dbus_queue_pop_message` or non-blocking `gt_dbus_queue_try_pop_message`
— returns delivered messages in FIFO arrival order. At a queue holding one
delivered message the blocking pop does return it, but the non-blocking
pop returns FALSE and leaves the message queued: the loop condition
`wait && (invocation = g_async_queue_try_pop (...)) == NULL` in
`gt_dbus_queue_pop_message_internal` short-circuits when `wait` is FALSE,
so `g_async_queue_try_pop` is never evaluated — contradicting both the
claim and the function's own documentation ("Pop a message off the
server's message queue, if one is ready to be popped"). -/
theorem c1_try_pop_message_never_pops :
    queueWithOneMessage.serverMessageQueue.items = [inv1] ∧
    gt_dbus_queue_try_pop_message queueWithOneMessage =
      (false, none, queueWithOneMessage) ∧
    gt_dbus_queue_pop_message queueWithOneMessage [] =
      some (true, some inv1, connectedQueue) :=
  ⟨rfl, rfl, rfl⟩

/-- Claim C2: `gt_dbus_queue_format_messages` returns the head-first dump
of every pending message and leaves the message queue unchanged — the
drain-into-a-side-buffer-and-push-back (one atomic step in this model,
matching the single `g_async_queue_lock` critical section) restores the
original contents and order exactly. -/
theorem c2_format_messages_frame (self : GtDBusQueue) :
    (gt_dbus_queue_format_messages self).1 =
      joinRendered self.serverMessageQueue.items ∧
    (gt_dbus_queue_format_messages self).2 = self :=
  ⟨format_messages_output self, format_messages_state self⟩

/-- Claim C4: on an empty message queue, `gt_dbus_queue_try_pop_message`
returns FALSE immediately, without blocking and without modifying the
queue, and `gt_dbus_queue_get_n_messages` afterwards still returns 0;
moreover `gt_dbus_queue_get_n_messages` is clamped to be non-negative in
every state (its raw `g_async_queue_length` input can be negative). -/
theorem c4_try_pop_empty_and_count_clamped (self : GtDBusQueue)
    (h : self.serverMessageQueue.items = []) :
    gt_dbus_queue_try_pop_message self = (false, none, self) ∧
    gt_dbus_queue_get_n_messages self = 0 ∧
    ∀ q : GtDBusQueue, 0 ≤ (gt_dbus_queue_get_n_messages q : Int) := by
  refine ⟨?_, ?_, fun q => Int.natCast_nonneg _⟩
  · unfold gt_dbus_queue_try_pop_message gt_dbus_queue_pop_message_internal
    cases hst : self.serverThread <;> simp [hst]
  · unfold gt_dbus_queue_get_n_messages GAsyncQueue.length
    rw [h]
    simp

/-- Witness for C4 at the connected empty queue. -/
theorem c4_witness :
    gt_dbus_queue_try_pop_message connectedQueue =
      (false, none, connectedQueue) ∧
    gt_dbus_queue_get_n_messages connectedQueue = 0 :=
  ⟨(c4_try_pop_empty_and_count_clamped connectedQueue rfl).1,
   (c4_try_pop_empty_and_count_clamped connectedQueue rfl).2.1⟩

/-- Claim C5: the `gt_dbus_queue_assert_no_messages` macro passes (no
abort, queue untouched) iff `gt_dbus_queue_get_n_messages` returns 0; with
a positive count it aborts with a failure message that carries the
formatted dump of every pending message. -/
theorem c5_assert_no_messages_iff (self : GtDBusQueue) :
    ((gt_dbus_queue_assert_no_messages self).1 = none ↔
      gt_dbus_queue_get_n_messages self = 0) ∧
    (gt_dbus_queue_assert_no_messages self).2 = self ∧
    (0 < gt_dbus_queue_get_n_messages self →
      (gt_dbus_queue_assert_no_messages self).1 =
        some ("Expected no messages, but saw " ++
          toString (gt_dbus_queue_get_n_messages self) ++ ":\n" ++
          joinRendered self.serverMessageQueue.items)) := by
  have hstate := format_messages_state self
  have hout := format_messages_output self
  by_cases h : gt_dbus_queue_get_n_messages self > 0
  · refine ⟨?_, ?_, fun _ => ?_⟩
    · have hne : (gt_dbus_queue_assert_no_messages self).1 ≠ none := by
        simp [gt_dbus_queue_assert_no_messages, h]
      constructor
      · intro hc; exact absurd hc hne
      · intro hz; omega
    · simp [gt_dbus_queue_assert_no_messages, h, hstate]
    · simp [gt_dbus_queue_assert_no_messages, h, hstate, hout]
  · have hz : gt_dbus_queue_get_n_messages self = 0 := by omega
    refine ⟨?_, ?_, fun hpos => absurd hpos h⟩
    · simp [gt_dbus_queue_assert_no_messages, h, hz]
    · simp [gt_dbus_queue_assert_no_messages, h]

/-- Claim C3 counterexample: the claim states that during
`gt_dbus_queue_disconnect` the lock is held only around the
owned-ID-collection mutation "and not around the unregister/unown calls
themselves". At a connected queue tracking name ID 7 and object ID 9, the
disconnect trace performs the `g_bus_unown_name` and
`g_dbus_connection_unregister_object` calls inside the critical section
delimited by the lock acquire/release events, refuting that part of the
claim: the source takes the mutex once around both loops and the
`g_array_set_size` calls. -/
theorem c3_counterexample :
    ¬ (∀ e ∈ lockedSegment (disconnectTrace disconnectFixture false),
        e.isUnregisterCall = false) := by decide

/-- Claim C3 (amended): `gt_dbus_queue_disconnect` performs teardown in
exactly this order — close the client connection; take the lock; release
every owned name; clear the name-ID collection; unregister every owned
object; clear the object-ID collection; release the lock (so the single
critical section covers the unown/unregister calls as well as the
ID-collection mutation); remove the debug filter; close the server
connection; shut the private bus down; atomically store the quitting flag;
wake the server event loop; join the server thread. -/
theorem c3_disconnect_order (self : GtDBusQueue)
    (h1 : self.serverThread = true)
    (h2 : self.clientConnection.isSome = true)
    (h3 : self.serverConnection.isSome = true)
    (h4 : self.serverFilterId ≠ 0) :
    gt_dbus_queue_disconnect self false =
      .ok ([.closeClientConnection, .lockAcquire] ++
        self.nameIds.map DisconnectEvent.unownName ++ [.clearNameIds] ++
        self.objectIds.map DisconnectEvent.unregisterObject ++
        [.clearObjectIds, .lockRelease, .removeFilter, .closeServerConnection,
         .busDown, .storeQuittingAtomic, .wakeupServerContext,
         .joinServerThread],
        { self with
          clientConnection := none
          nameIds := []
          objectIds := []
          serverFilterId := 0
          serverConnection := none
          quitting := true
          serverThread := false }) := by
  simp [gt_dbus_queue_disconnect, h1, h2, h3, h4]

/-- Witness for the amended C3 at the concrete fixture. -/
theorem c3_witness :
    gt_dbus_queue_disconnect disconnectFixture false =
      .ok ([.closeClientConnection, .lockAcquire, .unownName 7, .clearNameIds,
            .unregisterObject 9, .clearObjectIds, .lockRelease, .removeFilter,
            .closeServerConnection, .busDown, .storeQuittingAtomic,
            .wakeupServerContext, .joinServerThread],
           { disconnectFixture with
             clientConnection := none
             nameIds := []
             objectIds := []
             serverFilterId := 0
             serverConnection := none
             quitting := true
             serverThread := false }) :=
  c3_disconnect_order disconnectFixture rfl rfl rfl (by decide)

/-- Events whose invoke count is zero when replicated (helper). -/
theorem countP_invoke_replicate (n : Nat) (e : ServerThreadEvent)
    (h : e.isInvoke = false) :
    (List.replicate n e).countP ServerThreadEvent.isInvoke = 0 := by
  induction n with
  | zero => rfl
  | succ n ih => simp [List.replicate_succ, List.countP_cons, ih, h]

/-- Claim C7: the server-function slot is write-once — the first
`gt_dbus_queue_set_server_func` installs the callback and its user data;
any second call, whatever its arguments, aborts; and one run of the server
thread invokes the installed callback exactly once (and at most once from
any state). -/
theorem c7_set_server_func_write_once (self : GtDBusQueue)
    (func userData : Nat) (hempty : self.serverFunc = none)
    (hfunc : func ≠ 0) :
    gt_dbus_queue_set_server_func self func userData =
      .ok { self with serverFunc := some func, serverFuncData := userData } ∧
    (∀ func2 userData2,
      CallResult.isFatal
        (gt_dbus_queue_set_server_func
          { self with serverFunc := some func, serverFuncData := userData }
          func2 userData2) = true) ∧
    (∀ waitIters drainIters finalIters,
      (gt_dbus_queue_server_thread_cb
          { self with serverFunc := some func, serverFuncData := userData }
          waitIters drainIters finalIters).countP
        ServerThreadEvent.isInvoke = 1) ∧
    (∀ (q : GtDBusQueue) (waitIters drainIters finalIters : Nat),
      (gt_dbus_queue_server_thread_cb q waitIters drainIters
          finalIters).countP ServerThreadEvent.isInvoke ≤ 1) := by
  refine ⟨?_, ?_, ?_, ?_⟩
  · simp [gt_dbus_queue_set_server_func, hfunc, hempty]
  · intro func2 userData2
    by_cases h2 : func2 = 0
    · simp [gt_dbus_queue_set_server_func, h2, CallResult.isFatal]
    · simp [gt_dbus_queue_set_server_func, h2, CallResult.isFatal]
  · intro waitIters drainIters finalIters
    simp [gt_dbus_queue_server_thread_cb, List.countP_append,
          countP_invoke_replicate, List.countP_cons,
          ServerThreadEvent.isInvoke]
  · intro q waitIters drainIters finalIters
    cases hf : q.serverFunc <;>
      simp [gt_dbus_queue_server_thread_cb, hf, List.countP_append,
            countP_invoke_replicate, List.countP_cons,
            ServerThreadEvent.isInvoke]

/-- Witness for C7: install server function 5 with data 3 on the connected
queue; a second installation is fatal. -/
theorem c7_witness :
    gt_dbus_queue_set_server_func connectedQueue 5 3 =
      .ok { connectedQueue with serverFunc := some 5, serverFuncData := 3 } ∧
    CallResult.isFatal
      (gt_dbus_queue_set_server_func
        { connectedQueue with serverFunc := some 5, serverFuncData := 3 }
        6 4) = true :=
  ⟨(c7_set_server_func_write_once connectedQueue 5 3 rfl (by decide)).1,
   (c7_set_server_func_write_once connectedQueue 5 3 rfl (by decide)).2.1 6 4⟩

/-- Claim C8: `gt_dbus_queue_export_object` with a malformed object path
(in particular any path that does not start with a solidus) fails its
`g_return_val_if_fail` precondition check; the check logs a critical
message, and a GLib test process aborts on criticals (`g_test_init` makes
them fatal), so the call aborts the test process rather than returning an
error or a zero ID. -/
theorem c8_export_object_malformed_path (self : GtDBusQueue)
    (objectPath : String) (hasInterfaceInfo : Bool)
    (registerResult : Except String Nat)
    (hmal : g_variant_is_object_path objectPath = false) :
    gt_dbus_queue_export_object self objectPath hasInterfaceInfo
        registerResult = .precondFail ∧
    CallResult.isFatal
      (gt_dbus_queue_export_object self objectPath hasInterfaceInfo
        registerResult) = true ∧
    (∀ p : String, p.data.head? ≠ some '/' →
      g_variant_is_object_path p = false) := by
  refine ⟨?_, ?_, ?_⟩
  · cases hst : self.serverThread <;>
      simp [gt_dbus_queue_export_object, hst, hmal]
  · cases hst : self.serverThread <;>
      simp [gt_dbus_queue_export_object, hst, hmal, CallResult.isFatal]
  · intro p hp
    unfold g_variant_is_object_path
    cases hd : p.data with
    | nil => rfl
    | cons c rest =>
        rw [hd] at hp
        have hc : (c == '/') = false := by
          simp only [List.head?] at hp
          simp [beq_iff_eq]
          intro hceq
          exact hp (by rw [hceq])
        simp [hc]

/-- Witness for C8 at a relative path. -/
theorem c8_witness :
    gt_dbus_queue_export_object connectedQueue "relative/path" true
        (.ok 5) = .precondFail ∧
    CallResult.isFatal
      (gt_dbus_queue_export_object connectedQueue "relative/path" true
        (.ok 5)) = true :=
  ⟨(c8_export_object_malformed_path connectedQueue "relative/path" true
      (.ok 5) (by decide)).1,
   (c8_export_object_malformed_path connectedQueue "relative/path" true
      (.ok 5) (by decide)).2.1⟩

/-- Witness for C5: the assertion passes at the connected empty queue and
aborts, with the dump attached, at the queue holding one message. -/
theorem c5_witness :
    (gt_dbus_queue_assert_no_messages connectedQueue).1 = none ∧
    (gt_dbus_queue_assert_no_messages queueWithOneMessage).1 =
      some ("Expected no messages, but saw " ++
        toString (gt_dbus_queue_get_n_messages queueWithOneMessage) ++ ":\n" ++
        joinRendered queueWithOneMessage.serverMessageQueue.items) :=
  ⟨(c5_assert_no_messages_iff connectedQueue).1.mpr rfl,
   (c5_assert_no_messages_iff queueWithOneMessage).2.2 (by decide)⟩

/-- Helper: `g_array_remove_index_fast` at a valid index is a permutation
of removing the element at that index. -/
theorem remove_index_fast_perm (l : List Nat) (i : Nat) (h : i < l.length) :
    (g_array_remove_index_fast l i).Perm (l.eraseIdx i) := by
  have hne : l ≠ [] := by
    intro hE
    rw [hE] at h
    simp at h
  obtain ⟨front, b, rfl⟩ : ∃ front b, l = front ++ [b] :=
    ⟨l.dropLast, l.getLast hne, (List.dropLast_append_getLast hne).symm⟩
  have hlast : (front ++ [b]).getLast?.getD 0 = b := by
    rw [List.getLast?_concat]
    rfl
  unfold g_array_remove_index_fast
  rw [hlast, List.set_append]
  rcases Nat.lt_or_ge i front.length with hi | hi
  · -- i is strictly before the last position: the last element is moved
    -- into the hole and the tail cell dropped, a permutation of erasing.
    rw [if_pos hi, List.dropLast_concat,
        List.eraseIdx_eq_take_drop_succ,
        List.take_append_of_le_length (le_of_lt hi),
        List.drop_append_of_le_length (Nat.succ_le_of_lt hi),
        List.set_eq_take_cons_drop _ hi]
    exact (List.Perm.append_left _
      (List.perm_append_singleton _ _)).symm
  · -- i is the last position: the set is the identity and dropping the
    -- last element is exactly erasing at i.
    have hieq : i = front.length := by
      have := List.length_append front [b] ▸ h
      simp at this
      omega
    subst hieq
    rw [if_neg (lt_irrefl _), Nat.sub_self]
    have hset0 : [b].set 0 b = [b] := rfl
    rw [hset0, List.dropLast_concat, List.eraseIdx_eq_take_drop_succ,
        List.take_left, List.drop_eq_nil_of_le (by simp), List.append_nil]

/-- Helper: erasing the element at a valid index of a duplicate-free list
removes exactly the occurrences of that value. -/
theorem mem_eraseIdx_of_nodup (l : List Nat) (i : Nat) (h : i < l.length)
    (hnd : l.Nodup) (x : Nat) :
    x ∈ l.eraseIdx i ↔ (x ∈ l ∧ x ≠ l[i]) := by
  have hsplit : l.take i ++ l[i] :: l.drop (i + 1) = l := by
    rw [← List.drop_eq_getElem_cons h, List.take_append_drop]
  have hnd2 : (l.take i ++ l[i] :: l.drop (i + 1)).Nodup := by
    rw [hsplit]
    exact hnd
  rw [List.nodup_append] at hnd2
  obtain ⟨hnd_take, hnd_cons, hdisj⟩ := hnd2
  have hnotin_drop : l[i] ∉ l.drop (i + 1) := (List.nodup_cons.mp hnd_cons).1
  have hnotin_take : l[i] ∉ l.take i :=
    fun hmem => hdisj hmem (List.mem_cons_self _ _)
  rw [List.eraseIdx_eq_take_drop_succ]
  constructor
  · intro hx
    rcases List.mem_append.mp hx with hx | hx
    · refine ⟨by rw [← hsplit]; exact List.mem_append.mpr (Or.inl hx), ?_⟩
      intro hxe
      rw [hxe] at hx
      exact hnotin_take hx
    · refine ⟨by
        rw [← hsplit]
        exact List.mem_append.mpr (Or.inr (List.mem_cons_of_mem _ hx)), ?_⟩
      intro hxe
      rw [hxe] at hx
      exact hnotin_drop hx
  · rintro ⟨hxl, hxne⟩
    rw [← hsplit] at hxl
    rcases List.mem_append.mp hxl with hx | hx
    · exact List.mem_append.mpr (Or.inl hx)
    · rcases List.mem_cons.mp hx with hx | hx
      · exact absurd hx hxne
      · exact List.mem_append.mpr (Or.inr hx)

/-- Helper: `g_array_remove_index_fast` at a valid index shortens the list
by exactly one. -/
theorem remove_index_fast_length (l : List Nat) (i : Nat)
    (h : i < l.length) :
    (g_array_remove_index_fast l i).length + 1 = l.length := by
  unfold g_array_remove_index_fast
  rw [List.length_dropLast, List.length_set]
  omega

/-- Claim C6: for a connected queue whose tracked name-ownership IDs are
duplicate-free, `gt_dbus_queue_unown_name` with a (nonzero) ID not in the
set hits `g_assert_not_reached`; with a tracked ID it removes exactly that
one entry, leaving every other tracked ID in place; and a second unown of
the same (now untracked) ID also fatally asserts. -/
theorem c6_unown_name_contract (self : GtDBusQueue) (id : Nat)
    (hconn : self.serverThread = true) (hnz : id ≠ 0)
    (hnodup : self.nameIds.Nodup) :
    (id ∉ self.nameIds → gt_dbus_queue_unown_name self id = .fatalAssert) ∧
    (id ∈ self.nameIds →
      ∃ self2, gt_dbus_queue_unown_name self id = .ok self2 ∧
        (∀ x, x ∈ self2.nameIds ↔ (x ∈ self.nameIds ∧ x ≠ id)) ∧
        self2.nameIds.length + 1 = self.nameIds.length ∧
        gt_dbus_queue_unown_name self2 id = .fatalAssert) := by
  constructor
  · intro hnotin
    have hfind : self.nameIds.findIdx? (fun x => x == id) = none :=
      List.findIdx?_eq_none_iff.mpr (fun x hx =>
        beq_eq_false_iff_ne.mpr (fun hxe => hnotin (hxe ▸ hx)))
    unfold gt_dbus_queue_unown_name
    rw [hconn]
    simp [hnz, hfind]
  · intro hin
    have hexists : ∃ i, self.nameIds.findIdx? (fun x => x == id) = some i := by
      cases hf : self.nameIds.findIdx? (fun x => x == id) with
      | some i => exact ⟨i, rfl⟩
      | none =>
          have := List.findIdx?_eq_none_iff.mp hf id hin
          simp at this
    obtain ⟨i, hfind⟩ := hexists
    obtain ⟨hlt, hidx⟩ := List.findIdx?_eq_some_iff_findIdx_eq.mp hfind
    have hgi : self.nameIds[i] = id := by
      have := ((List.findIdx_eq hlt).mp hidx).1
      simpa using this
    have hperm := remove_index_fast_perm self.nameIds i hlt
    have hmem : ∀ x, x ∈ g_array_remove_index_fast self.nameIds i ↔
        (x ∈ self.nameIds ∧ x ≠ id) := by
      intro x
      rw [hperm.mem_iff, mem_eraseIdx_of_nodup self.nameIds i hlt hnodup x,
          hgi]
    refine ⟨{ self with
              nameIds := g_array_remove_index_fast self.nameIds i },
            ?_, hmem, remove_index_fast_length self.nameIds i hlt, ?_⟩
    · unfold gt_dbus_queue_unown_name
      rw [hconn]
      simp [hnz, hfind]
    · have hnotin2 : id ∉ g_array_remove_index_fast self.nameIds i := by
        rw [hmem id]
        simp
      have hfind2 : (g_array_remove_index_fast self.nameIds i).findIdx?
          (fun x => x == id) = none :=
        List.findIdx?_eq_none_iff.mpr (fun x hx =>
          beq_eq_false_iff_ne.mpr (fun hxe => hnotin2 (hxe ▸ hx)))
      unfold gt_dbus_queue_unown_name
      rw [show ({ self with
            nameIds := g_array_remove_index_fast self.nameIds i } :
          GtDBusQueue).serverThread = self.serverThread from rfl, hconn]
      simp [hnz, hfind2]

/-- Witness for C6 at the fixture tracking IDs 7 and 8: an untracked ID is
fatal, unowning 7 removes exactly it, and unowning 7 again is fatal. -/
theorem c6_witness :
    gt_dbus_queue_unown_name namesFixture 9 = .fatalAssert ∧
    gt_dbus_queue_unown_name namesFixture 7 =
      .ok { namesFixture with nameIds := [8] } ∧
    gt_dbus_queue_unown_name { namesFixture with nameIds := [8] } 7 =
      .fatalAssert :=
  ⟨(c6_unown_name_contract namesFixture 9 rfl (by decide) (by decide)).1
     (by decide),
   rfl,
   (c6_unown_name_contract { namesFixture with nameIds := [8] } 7 rfl
     (by decide) (by decide)).1 (by decide)⟩

/-- Claim C9: `gt_dbus_queue_match_client_message` is a pure predicate (in
this model a function returning only a Bool, with no state output): given
valid expected strings and a present client connection, it returns TRUE
iff the invocation's sender equals the client connection's unique name and
its object path, interface name and method name equal the expected strings
exactly and — only when an expected-parameters string is supplied — its
parameters equal the parsed expected value; a NULL parameters argument
skips the comparison entirely. -/
theorem c9_match_client_message_iff (self : GtDBusQueue)
    (invocation : GDBusMethodInvocation)
    (path iface method : String) (params : Option String)
    (client : GDBusConnection)
    (hclient : self.clientConnection = some client)
    (hpath : g_variant_is_object_path path = true)
    (hiface : g_dbus_is_interface_name iface = true)
    (hmethod : g_dbus_is_member_name method = true) :
    gt_dbus_queue_match_client_message self invocation path iface method
        params = true ↔
      (invocation.sender = client.uniqueName ∧
       invocation.objectPath = path ∧
       invocation.interfaceName = iface ∧
       invocation.methodName = method ∧
       (∀ ps, params = some ps →
         invocation.parameters = g_variant_new_parsed ps)) := by
  unfold gt_dbus_queue_match_client_message
  cases params with
  | none =>
      simp [hpath, hiface, hmethod, hclient, g_variant_equal, and_assoc]
  | some ps =>
      simp [hpath, hiface, hmethod, hclient, g_variant_equal,
            g_variant_new_parsed, and_assoc]

/-- Witness for C9: the first fixture call matches its own header fields,
both with and without an expected-parameters string. -/
theorem c9_witness :
    gt_dbus_queue_match_client_message connectedQueue inv1
        "/com/example/Test" "com.example.Test.Manager" "GetObjectPath"
        (some "(uint32 123,)") = true ∧
    gt_dbus_queue_match_client_message connectedQueue inv1
        "/com/example/Test" "com.example.Test.Manager" "GetObjectPath"
        none = true := by
  constructor
  · exact (c9_match_client_message_iff connectedQueue inv1
      "/com/example/Test" "com.example.Test.Manager" "GetObjectPath"
      (some "(uint32 123,)") sampleClientConnection rfl (by decide)
      (by decide) (by decide)).mpr
      ⟨rfl, rfl, rfl, rfl, fun ps h => by cases h; rfl⟩
  · exact (c9_match_client_message_iff connectedQueue inv1
      "/com/example/Test" "com.example.Test.Manager" "GetObjectPath"
      none sampleClientConnection rfl (by decide)
      (by decide) (by decide)).mpr
      ⟨rfl, rfl, rfl, rfl, fun ps h => by cases h⟩

/-- Claim C10: whenever the blocking `gt_dbus_queue_pop_message` returns
(on a connected queue), it has popped a message — it returns TRUE together
with a popped invocation — so the FALSE return, and with it the "saw no
messages" failure branch of `gt_dbus_queue_assert_pop_message_impl` (which
uses the blocking pop), is unreachable through the blocking variant: there
is no timeout path despite the documented "timed out" return. -/
theorem c10_blocking_pop_always_pops (self : GtDBusQueue)
    (h : self.serverThread = true) :
    (∀ sched r, gt_dbus_queue_pop_message self sched = some r →
      r.1 = true ∧ r.2.1 ≠ none) ∧
    (∀ sched path iface method msg,
      gt_dbus_queue_assert_pop_message_impl self path iface method sched ≠
        some (.sawNoMessages msg)) := by
  have main : ∀ sched r, gt_dbus_queue_pop_message self sched = some r →
      r.1 = true ∧ r.2.1 ≠ none := by
    intro sched r hr
    unfold gt_dbus_queue_pop_message gt_dbus_queue_pop_message_internal at hr
    rw [h] at hr
    simp only [Bool.true_eq_false, if_false, if_true, reduceIte] at hr
    cases hpl : popWaitLoop self.serverMessageQueue.items sched with
    | none => rw [hpl] at hr; simp at hr
    | some p =>
        rw [hpl] at hr
        obtain ⟨m, rest⟩ := p
        simp only [Option.some.injEq] at hr
        subst hr
        exact ⟨rfl, by simp⟩
  refine ⟨main, ?_⟩
  intro sched path iface method msg
  cases hp : g_variant_is_object_path path with
  | false => simp [gt_dbus_queue_assert_pop_message_impl, hp]
  | true =>
  cases hi : g_dbus_is_interface_name iface with
  | false => simp [gt_dbus_queue_assert_pop_message_impl, hp, hi]
  | true =>
  cases hm : g_dbus_is_member_name method with
  | false => simp [gt_dbus_queue_assert_pop_message_impl, hp, hi, hm]
  | true =>
  cases hpop : gt_dbus_queue_pop_message self sched with
  | none => simp [gt_dbus_queue_assert_pop_message_impl, hp, hi, hm, hpop]
  | some r =>
      obtain ⟨popped, outInvocation, q⟩ := r
      obtain ⟨h1, h2⟩ := main sched (popped, outInvocation, q) hpop
      subst h1
      cases outInvocation with
      | none => exact absurd rfl h2
      | some i =>
          by_cases hmatch : gt_dbus_queue_match_client_message self i path
              iface method none = true
          · simp [gt_dbus_queue_assert_pop_message_impl, hp, hi, hm, hpop,
                  hmatch]
          · simp [gt_dbus_queue_assert_pop_message_impl, hp, hi, hm, hpop,
                  hmatch]

/-- Witness for C10: at the queue holding one message, the assert-pop
helper cannot take the "saw no messages" branch. -/
theorem c10_witness :
    gt_dbus_queue_assert_pop_message_impl queueWithOneMessage
        "/com/example/Test" "com.example.Test.Manager" "GetObjectPath" [] ≠
      some (.sawNoMessages
        "Expected message com.example.Test.Manager.GetObjectPath from /com/example/Test, but saw no messages") :=
  (c10_blocking_pop_always_pops queueWithOneMessage rfl).2 []
    "/com/example/Test" "com.example.Test.Manager" "GetObjectPath" _

end GtDBus
